import Mathlib

/-!
# Verification of the Midnight Explorer data layer

Shallow embedding of the data-access layer of the `midnight-explorer`
repository (`src/lib/data.ts`, the RPC-only data layer of
`src/unnamed/part_003`, and the provider factory), together with proofs
settling the frozen claims about the natural-language specification.

JavaScript semantics are modelled as follows:
* machine arithmetic: JS `|0` / `<<` work on 32-bit signed integers; we use
  `Int` with explicit reduction modulo `2^32`;
* `undefined` is `Option.none`; JS truthiness is made explicit per type
  (`0`, `""`, `undefined`, `NaN` are falsy);
* dates: `Date.getMinutes`/`setMinutes` are local-time operations; the
  embedding assumes the server runs with TZ=UTC, the standard deployment
  setting, so they coincide with UTC arithmetic on epoch milliseconds.
-/

/-- JS `x | 0`: reduce an integer to the 32-bit signed range. -/
def toInt32 (x : Int) : Int :=
  (x + 2147483648) % 4294967296 - 2147483648

/-- One step of the seeded-hash loop of `seededRandom` in `data.ts`:
`hash = ((hash << 5) - hash) + seed.charCodeAt(i); hash |= 0`.
The `<<` truncates to 32 bits; the subtraction and addition are exact in
doubles at these magnitudes; the final `|0` truncates again. -/
def seededRandomStep (h : Int) (c : Char) : Int :=
  toInt32 (toInt32 (h * 32) - h + (c.toNat : Int))

/-- Embeds `seededRandom(seed)` of `data.ts`, scaled by `10^6`: the function returns
`(Math.abs(hash) % 1000000) / 1000000`; we keep the integer numerator, which
determines every use (`Math.floor(rand * k)` and `rand > 0.9`). -/
def seededRandomNum (seed : String) : Nat :=
  (seed.data.foldl seededRandomStep 0).natAbs % 1000000

/-- Embeds `Math.floor(rand * k)` where `rand = seededRandomNum seed / 10^6`.
For the multipliers used in the source (16, 20, 50, 2000, 10000) the
double-precision computation agrees with exact rational arithmetic, so this
is integer division. -/
def randFloorMul (seed : String) (k : Nat) : Nat :=
  seededRandomNum seed * k / 1000000

/-- Embeds `rand > 0.9` in doubles agrees with the exact comparison
`seededRandomNum seed / 10^6 > 9/10`. -/
def randGt09 (seed : String) : Bool :=
  seededRandomNum seed > 900000

/-- Digits-prefix part of JS `parseInt(s, 10)`: longest digit prefix, `none`
("NaN") when there is none. -/
def digitsPrefixVal (cs : List Char) : Option Nat :=
  let ds := cs.takeWhile Char.isDigit
  if ds.isEmpty then none
  else some (ds.foldl (fun a c => a * 10 + (c.toNat - 48)) 0)

/-- JS `parseInt(s, 10)`: skip leading whitespace, optional sign, then the
longest digit prefix; `none` models `NaN`. -/
def parseIntJs (s : String) : Option Int :=
  match s.data.dropWhile Char.isWhitespace with
  | '-' :: rest => (digitsPrefixVal rest).map (fun n => -(n : Int))
  | '+' :: rest => (digitsPrefixVal rest).map (fun n => (n : Int))
  | cs => (digitsPrefixVal cs).map (fun n => (n : Int))

/-- The regular expression test `/^\d+$/.test(id)` used by both HTTP data
layers to classify an id as a height. -/
def isNumericStr (s : String) : Bool :=
  !s.isEmpty && s.data.all Char.isDigit

/-- JS `Array.prototype.slice(start, end)` with integer arguments:
negative indices count from the end, indices are clamped to `[0, length]`. -/
def jsSlice {α : Type} (l : List α) (s e : Int) : List α :=
  let len : Int := l.length
  let s' := if s < 0 then max (len + s) 0 else min s len
  let e' := if e < 0 then max (len + e) 0 else min e len
  (l.drop s'.toNat).take (e'.toNat - s'.toNat)

/-- Embeds `cursor ? parseInt(cursor, 10) : 0`: an absent or empty cursor is offset
0; otherwise JS `parseInt`, whose `NaN` outcome is `none`. -/
def parseCursor (cursor : Option String) : Option Int :=
  match cursor with
  | none => some 0
  | some c => if c = "" then some 0 else parseIntJs c

/-- Decimal numeral padded to two digits. -/
def pad2 (n : Nat) : String :=
  if n < 10 then "0" ++ toString n else toString n

/-- Decimal numeral padded to three digits. -/
def pad3 (n : Nat) : String :=
  if n < 100 then "0" ++ pad2 n else toString n

/-- Civil date (year, month, day) from a count of days since 1970-01-01
(Gregorian; the algorithm used by every `Date`-to-ISO conversion). -/
def civilFromDays (z0 : Nat) : Nat × Nat × Nat :=
  let z := z0 + 719468
  let era := z / 146097
  let doe := z % 146097
  let yoe := (doe - doe / 1460 + doe / 36524 - doe / 146096) / 365
  let y := yoe + era * 400
  let doy := doe - (365 * yoe + yoe / 4 - yoe / 100)
  let mp := (5 * doy + 2) / 153
  let d := doy - (153 * mp + 2) / 5 + 1
  let m := if mp < 10 then mp + 3 else mp - 9
  ((if m ≤ 2 then y + 1 else y), m, d)

/-- The date part `YYYY-MM-DD` of `Date.prototype.toISOString` for an epoch
time in milliseconds, i.e. `toISOString().split('T')[0]`. -/
def isoDateString (ms : Nat) : String :=
  let c := civilFromDays (ms / 86400000)
  toString c.1 ++ "-" ++ pad2 c.2.1 ++ "-" ++ pad2 c.2.2

/-- Full `Date.prototype.toISOString`: `YYYY-MM-DDTHH:mm:ss.sssZ`. -/
def isoString (ms : Nat) : String :=
  isoDateString ms ++ "T" ++ pad2 (ms / 3600000 % 24) ++ ":" ++
    pad2 (ms / 60000 % 60) ++ ":" ++ pad2 (ms / 1000 % 60) ++ "." ++
    pad3 (ms % 1000) ++ "Z"

/-- JS `(n / 100).toString()` for a natural `n ≤ 9999`: the double quotient
has an exact short decimal representation, printed without trailing zeros.
Used for the mock address balance `(Math.floor(rand * 10000) / 100).toString()`. -/
def jsDiv100Str (n : Nat) : String :=
  let ip := n / 100
  let fr := n % 100
  if fr = 0 then toString ip
  else if fr % 10 = 0 then toString ip ++ "." ++ toString (fr / 10)
  else toString ip ++ "." ++ pad2 fr

/-! ## Data model (`src/lib/types.ts` shapes as used by `data.ts`) -/

/-- Transaction status: `'success' | 'failed' | 'pending'`. -/
inductive TxStatus where
  | success
  | failed
  | pending
deriving DecidableEq, Repr

/-- Canonical `Block` entity. -/
structure Block where
  height : Int
  hash : String
  timestamp : String
  txCount : Int
deriving DecidableEq, Repr

/-- Canonical `Transaction` entity; `none` models `undefined`. -/
structure Transaction where
  hash : String
  status : TxStatus
  blockHeight : Option Int
  timestamp : Option String
  size : Option Int
deriving DecidableEq, Repr

/-- Canonical `AddressSummary` entity. -/
structure AddressSummary where
  address : String
  balance : Option String
  txCount : Option Int
deriving DecidableEq, Repr

/-- Embeds `Page<T>`: one window of a paginated listing. -/
structure Page (α : Type) where
  items : List α
  nextCursor : Option String
deriving DecidableEq, Repr

/-! ## Mock Generator (`data.ts`: `generateMockBlock`, `generateMockTransaction`,
`MockProvider`)

The generators read the ambient clock (`new Date()`); the embedding makes
that input explicit as `now`, the epoch time in milliseconds. -/

/-- The 64-character synthetic hash: for each position `i`,
`Math.floor(seededRandom(seed + "-" + i) * 16).toString(16)`; the join of 64
single-character strings is the string of those characters. -/
def mockHash64 (seed : String) : String :=
  String.mk ((List.range 64).map (fun i =>
    Nat.digitChar (randFloorMul (seed ++ "-" ++ toString i) 16)))

/-- Embeds `generateMockBlock(height)` at clock reading `now` (ms).
`date.setMinutes(date.getMinutes() - height * 2)` subtracts exactly
`height * 2` minutes (the argument is an exact integer). -/
def generateMockBlock (now : Nat) (height : Nat) : Block :=
  let ms := now - height * 120000
  let seed := "block-" ++ toString height ++ "-" ++ isoDateString ms
  { height := (height : Int)
    hash := mockHash64 seed
    timestamp := isoString ms
    txCount := (randFloorMul seed 20 + 1 : Nat) }

/-- The epoch time produced by
`date.setMinutes(date.getMinutes() - (blockHeight || 0) * 2 - index * 0.1)`:
`setMinutes` truncates its (float) argument toward zero; for the indices in
use, `index * 0.1` never rounds across an integer boundary, so the truncated
value is the exact rational `(m0*10 - bh*20 - index)/10` truncated toward
zero (`Int.div`). The seconds/milliseconds parts of the date are preserved. -/
def mockTxMs (now : Nat) (index : Nat) (bh : Nat) : Nat :=
  let m0 : Int := ((now / 60000) % 60 : Nat)
  let tmin : Int := Int.tdiv (m0 * 10 - (bh : Int) * 20 - (index : Int)) 10
  ((now : Int) - m0 * 60000 + tmin * 60000).toNat

/-- Embeds `generateMockTransaction(index, blockHeight)` at clock reading `now`.
`blockHeight || 0` and the two `blockHeight ?` conditionals use JS
truthiness: `undefined` and `0` are falsy. -/
def generateMockTransaction (now : Nat) (index : Nat)
    (blockHeight : Option Nat) : Transaction :=
  let ms := mockTxMs now index (blockHeight.getD 0)
  let seed := "tx-" ++ toString index ++ "-" ++ isoDateString ms
  let bhTruthy : Bool := match blockHeight with
    | some bh => bh != 0
    | none => false
  { hash := mockHash64 seed
    status := if bhTruthy then TxStatus.success
              else if randGt09 seed then TxStatus.failed else TxStatus.pending
    blockHeight := blockHeight.map (fun bh => (bh : Int))
    timestamp := if bhTruthy then some (isoString ms) else none
    size := some (randFloorMul seed 2000 + 500 : Nat) }

namespace MockProvider

/-- The 100-block corpus built by the `MockProvider` constructor:
heights `12345 - i` for `i < 100`. -/
def mockBlocks (now : Nat) : List Block :=
  (List.range 100).map (fun i => generateMockBlock now (12345 - i))

/-- The 200-transaction corpus: the leading 160 transactions are confirmed
at height `12345 - Math.floor(i / 4)`, the rest have no block. -/
def mockTransactions (now : Nat) : List Transaction :=
  (List.range 200).map (fun i =>
    generateMockTransaction now i (if i < 160 then some (12345 - i / 4) else none))

/-- Embeds `MockProvider.getLatestBlocks(limit)`: `mockBlocks.slice(0, limit)`. -/
def getLatestBlocks (now : Nat) (limit : Int) : List Block :=
  jsSlice (mockBlocks now) 0 limit

/-- Embeds `MockProvider.getLatestTransactions(limit)`. -/
def getLatestTransactions (now : Nat) (limit : Int) : List Transaction :=
  jsSlice (mockTransactions now) 0 limit

/-- Embeds `MockProvider.getBlocksPage(cursor)`.  When the cursor parses to `NaN`
both `slice(NaN, NaN + 20)` (= `slice(0, 0)`) and `NaN + 20 < length`
(false) collapse to an empty page with no cursor. -/
def getBlocksPage (now : Nat) (cursor : Option String) : Page Block :=
  match parseCursor cursor with
  | none => { items := [], nextCursor := none }
  | some ci =>
    { items := jsSlice (mockBlocks now) ci (ci + 20)
      nextCursor :=
        if ci + 20 < ((mockBlocks now).length : Int)
        then some (toString (ci + 20)) else none }

/-- Embeds `MockProvider.getBlockByHashOrHeight(id)`: `parseInt` first, and only a
`NaN` result falls through to hash comparison. -/
def getBlockByHashOrHeight (now : Nat) (id : String) : Option Block :=
  match parseIntJs id with
  | some h => (mockBlocks now).find? (fun b => b.height == h)
  | none => (mockBlocks now).find? (fun b => b.hash == id)

/-- Embeds `MockProvider.getTransactionsPage(cursor)`. -/
def getTransactionsPage (now : Nat) (cursor : Option String) : Page Transaction :=
  match parseCursor cursor with
  | none => { items := [], nextCursor := none }
  | some ci =>
    { items := jsSlice (mockTransactions now) ci (ci + 20)
      nextCursor :=
        if ci + 20 < ((mockTransactions now).length : Int)
        then some (toString (ci + 20)) else none }

/-- Embeds `MockProvider.getTransactionByHash(hash)`: exact (case-sensitive) match. -/
def getTransactionByHash (now : Nat) (hash : String) : Option Transaction :=
  (mockTransactions now).find? (fun t => t.hash == hash)

/-- Embeds `MockProvider.getAddressSummary(addr)`: deterministic summary seeded by
`"addr-" + addr`. -/
def getAddressSummary (addr : String) : Option AddressSummary :=
  let seed := "addr-" ++ addr
  some { address := addr
         balance := some (jsDiv100Str (randFloorMul seed 10000))
         txCount := some (randFloorMul seed 50 + 1 : Nat) }

/-- Embeds `MockProvider.getBlockTransactions(id, cursor)`: resolve the block
height via `parseInt`, else by hash; a missing block yields an empty page;
otherwise page through the transactions whose `blockHeight` strictly equals
that height. -/
def getBlockTransactions (now : Nat) (id : String) (cursor : Option String) :
    Page Transaction :=
  let height : Option Int :=
    match parseIntJs id with
    | some h => some h
    | none => ((mockBlocks now).find? (fun b => b.hash == id)).map (·.height)
  match height with
  | none => { items := [], nextCursor := none }
  | some h =>
    let allTxs := (mockTransactions now).filter (fun tx => tx.blockHeight == some h)
    match parseCursor cursor with
    | none => { items := [], nextCursor := none }
    | some ci =>
      { items := jsSlice allTxs ci (ci + 20)
        nextCursor :=
          if ci + 20 < (allTxs.length : Int)
          then some (toString (ci + 20)) else none }

end MockProvider

/-! ## Indexer Client raw-response model (`data.ts`: `HttpProvider.mapBlock`,
`HttpProvider.mapTransaction` and the response-extraction expressions)

Loosely-shaped GraphQL responses are modelled structurally: each field the
mapper probes is an `Option` of the scalar shape the code distinguishes.
JS truthiness (`0`, `""`, `undefined` falsy) is explicit in `truthyN`,
`truthyS` and the `jsOrN`/`jsOrS` embeddings of `a || b`. -/

/-- A scalar JSON value where the code distinguishes strings, numbers and
booleans (`typeof` tests, `=== true` tests). -/
inductive JsLit where
  | jstr (s : String)
  | jnum (n : Int)
  | jbool (b : Bool)
deriving DecidableEq, Repr

/-- Decimal rendering of a scalar, as JS `toString()`. -/
def JsLit.render : JsLit → String
  | .jstr s => s
  | .jnum n => toString n
  | .jbool b => if b then "true" else "false"

/-- JS truthiness of a scalar: `""`, `0` and `false` are falsy. -/
def JsLit.truthy : JsLit → Bool
  | .jstr s => s != ""
  | .jnum n => n != 0
  | .jbool b => b

/-- JS truthiness of an optional number: `undefined` and `0` are falsy. -/
def truthyN (v : Option Int) : Bool :=
  match v with
  | some n => n != 0
  | none => false

/-- JS truthiness of an optional string: `undefined` and `""` are falsy. -/
def truthyS (v : Option String) : Bool :=
  match v with
  | some s => s != ""
  | none => false

/-- JS `a || b` on optional numbers: `a` when truthy, else `b` verbatim. -/
def jsOrN (a b : Option Int) : Option Int :=
  if truthyN a then a else b

/-- JS `a || b` on optional strings. -/
def jsOrS (a b : Option String) : Option String :=
  if truthyS a then a else b

/-- The `header` sub-object probed by `mapBlock`:
`header.number` may be a string or a number (the code `typeof`-tests it),
`header.timestamp` is a numeric string fed to `parseInt`. -/
structure RawHeader where
  number : Option JsLit
  timestamp : Option String
deriving DecidableEq, Repr

/-- The block-shaped record probed by `mapBlock`, one `Option` field per
source-field path the code reads. `extrinsics` is kept as a list because
only its `length` is consumed. -/
structure RawBlockData where
  height : Option Int
  number : Option Int
  header : Option RawHeader
  hash : Option String
  blockHash : Option String
  id : Option String
  timestamp : Option String
  time : Option String
  datetime : Option String
  txCount : Option Int
  transactionCount : Option Int
  extrinsicsCount : Option Int
  extrinsics : Option (List Unit)
deriving DecidableEq, Repr

/-- Embeds `mapBlock`'s argument: `const blockData = block.block || block` — the
record may wrap the data in a `block` field (objects are always truthy). -/
structure RawBlock where
  block : Option RawBlockData
  self : RawBlockData
deriving DecidableEq, Repr

/-- Embeds `HttpProvider.mapBlock`.  Field probing is by JS truthiness (`||`
chains), then `height === undefined` and `!hash` guards; a missing
timestamp is synthesized from `header.timestamp` or estimated from the
clock (`now`) minus two minutes per block.

Modelling notes, each covering a path no claim exercises:
* a string `header.number` that `parseInt`s to `NaN` would keep a
  `NaN` height in JS; here the record is dropped;
* a `header.timestamp` that parses to `NaN` makes `toISOString` throw, and
  the surrounding `catch` drops the record — embedded directly; a negative
  (pre-1970) value is also modelled as dropped;
* `parseInt` is called without a radix; on decimal digit strings this
  agrees with radix 10. -/
def mapBlock (now : Nat) (b : RawBlock) : Option Block :=
  let d := match b.block with
    | some bd => bd
    | none => b.self
  let headerNum : Option Int :=
    match d.header with
    | none => none
    | some hd =>
      match hd.number with
      | some (JsLit.jstr s) => parseIntJs s
      | some (JsLit.jnum n) => some n
      | some (JsLit.jbool _) => none
      | none => none
  match jsOrN (jsOrN d.height d.number) headerNum with
  | none => none
  | some height =>
    match jsOrS (jsOrS d.hash d.blockHash) d.id with
    | none => none
    | some hash =>
      if hash = "" then none
      else
        let ts1 := jsOrS (jsOrS d.timestamp d.time) d.datetime
        let ts2 : Option (Option String) :=
          if truthyS ts1 then some ts1
          else
            match d.header with
            | some hd =>
              if truthyS hd.timestamp then
                match parseIntJs (hd.timestamp.getD "") with
                | some ms => if ms < 0 then none else some (some (isoString ms.toNat))
                | none => none
              else some ts1
            | none => some ts1
        match ts2 with
        | none => none
        | some ts =>
          let timestamp :=
            if truthyS ts then ts.getD ""
            else isoString ((now : Int) - height * 120000).toNat
          let txCount : Int :=
            match jsOrN (jsOrN d.txCount d.transactionCount) d.extrinsicsCount with
            | some n => if n != 0 then n else ((d.extrinsics.map List.length).getD 0 : Nat)
            | none => ((d.extrinsics.map List.length).getD 0 : Nat)
          some { height := height, hash := hash, timestamp := timestamp,
                 txCount := txCount }

/-- The `block` sub-object probed by `mapTransaction`. -/
structure RawTxBlock where
  height : Option Int
  timestamp : Option String
deriving DecidableEq, Repr

/-- The transaction-shaped record probed by `mapTransaction`. -/
structure RawTxData where
  hash : Option String
  txHash : Option String
  id : Option String
  status : Option JsLit
  success : Option Bool
  blockHeight : Option Int
  blockNumber : Option Int
  block : Option RawTxBlock
  timestamp : Option String
  time : Option String
  datetime : Option String
  size : Option Int
  length : Option Int
deriving DecidableEq, Repr

/-- Embeds `mapTransaction`'s argument: `txData = tx.transaction || tx.extrinsic || tx`. -/
structure RawTx where
  transaction : Option RawTxData
  extrinsic : Option RawTxData
  self : RawTxData
deriving DecidableEq, Repr

/-- Embeds `HttpProvider.mapTransaction`: hash probing with `!hash` guard, status
from the `status`/`success` fields (`=== true/false/'success'/'failed'`),
block height via `blockHeight || blockNumber || (block?.height ?? undefined)`
(note `??` keeps a present `0`), timestamp probing with a `block.timestamp`
fallback, `size || length || undefined`. -/
def mapTransaction (t : RawTx) : Option Transaction :=
  let d := match t.transaction with
    | some x => x
    | none =>
      match t.extrinsic with
      | some x => x
      | none => t.self
  match jsOrS (jsOrS d.hash d.txHash) d.id with
  | none => none
  | some hash =>
    if hash = "" then none
    else
      let status :=
        if d.status == some (JsLit.jbool true) || d.success == some true ||
           d.status == some (JsLit.jstr "success") then TxStatus.success
        else if d.status == some (JsLit.jbool false) || d.success == some false ||
           d.status == some (JsLit.jstr "failed") then TxStatus.failed
        else TxStatus.pending
      let bh2 := jsOrN d.blockHeight d.blockNumber
      let blockHeight := if truthyN bh2 then bh2 else d.block.bind (·.height)
      let ts1 := jsOrS (jsOrS d.timestamp d.time) d.datetime
      let timestamp :=
        if truthyS ts1 then ts1
        else
          match d.block with
          | some blk => if truthyS blk.timestamp then blk.timestamp else ts1
          | none => ts1
      let s2 := jsOrN d.size d.length
      some { hash := hash, status := status, blockHeight := blockHeight,
             timestamp := timestamp, size := if truthyN s2 then s2 else none }

/-! ## Indexer-backed `HttpProvider` (`data.ts`)

`tryQueries` runs candidate queries in order and yields the first parseable
response; operations are embedded as functions of that outcome (`none` when
every candidate fails).  The `try`/`catch` wrappers never fire in the
embedding (all embedded computation is total); the `catch` branches return
the same mock fallback as the `!result` branches. -/

/-- Embeds `tryQueries`: first non-`null` result of the candidate list. -/
def tryQueries {α : Type} (results : List (Option α)) : Option α :=
  match results with
  | [] => none
  | r :: rest =>
    match r with
    | some v => some v
    | none => tryQueries rest

namespace HttpProvider

/-- Response shape of the block-list queries:
`result.blocks || result.data?.blocks || []` (arrays are truthy even when
empty). -/
structure BlocksRes where
  blocks : Option (List RawBlock)
  dataBlocks : Option (List RawBlock)
deriving DecidableEq, Repr

/-- The extraction expression of `getLatestBlocks`/`getBlocksPage`. -/
def BlocksRes.extract (r : BlocksRes) : List RawBlock :=
  match r.blocks with
  | some l => l
  | none => r.dataBlocks.getD []

/-- Response shape of the transaction-list queries:
`result.transactions || result.extrinsics || result.data?.transactions ||
result.data?.extrinsics || []`. -/
structure TxListRes where
  transactions : Option (List RawTx)
  extrinsics : Option (List RawTx)
  dataTransactions : Option (List RawTx)
  dataExtrinsics : Option (List RawTx)
deriving DecidableEq, Repr

/-- The extraction expression of the transaction-list operations. -/
def TxListRes.extract (r : TxListRes) : List RawTx :=
  match r.transactions with
  | some l => l
  | none =>
    match r.extrinsics with
    | some l => l
    | none =>
      match r.dataTransactions with
      | some l => l
      | none => r.dataExtrinsics.getD []

/-- Response shape of the single-block query:
`result.block || result.data?.block`. -/
structure BlockRes where
  block : Option RawBlock
  dataBlock : Option RawBlock
deriving DecidableEq, Repr

/-- The extraction expression of `getBlockByHashOrHeight`. -/
def BlockRes.extract (r : BlockRes) : Option RawBlock :=
  match r.block with
  | some b => some b
  | none => r.dataBlock

/-- Response shape of the single-transaction query: `result.transaction ||
result.extrinsic || result.data?.transaction || result.data?.extrinsic`. -/
structure TxRes where
  transaction : Option RawTx
  extrinsic : Option RawTx
  dataTransaction : Option RawTx
  dataExtrinsic : Option RawTx
deriving DecidableEq, Repr

/-- The extraction expression of `getTransactionByHash`. -/
def TxRes.extract (r : TxRes) : Option RawTx :=
  match r.transaction with
  | some t => some t
  | none =>
    match r.extrinsic with
    | some t => some t
    | none =>
      match r.dataTransaction with
      | some t => some t
      | none => r.dataExtrinsic

/-- The `balances` sub-object of the third address query shape. -/
structure RawBalances where
  free : Option JsLit
deriving DecidableEq, Repr

/-- The address-shaped record probed by `getAddressSummary`. -/
structure RawAddr where
  address : Option String
  id : Option String
  balance : Option JsLit
  balances : Option RawBalances
  txCount : Option Int
  transactionCount : Option Int
  transactionsCount : Option Int
deriving DecidableEq, Repr

/-- Response shape of the address queries: `result.address ||
result.account || result.data?.address || result.data?.account`. -/
structure AddrRes where
  address : Option RawAddr
  account : Option RawAddr
  dataAddress : Option RawAddr
  dataAccount : Option RawAddr
deriving DecidableEq, Repr

/-- The extraction expression of `getAddressSummary`. -/
def AddrRes.extract (r : AddrRes) : Option RawAddr :=
  match r.address with
  | some a => some a
  | none =>
    match r.account with
    | some a => some a
    | none =>
      match r.dataAddress with
      | some a => some a
      | none => r.dataAccount

/-- Response shape of the block-transaction queries:
`result.blockTransactions || result.extrinsics ||
result.data?.blockTransactions || result.data?.extrinsics || []`. -/
structure BlockTxsRes where
  blockTransactions : Option (List RawTx)
  extrinsics : Option (List RawTx)
  dataBlockTransactions : Option (List RawTx)
  dataExtrinsics : Option (List RawTx)
deriving DecidableEq, Repr

/-- The extraction expression of `getBlockTransactions`. -/
def BlockTxsRes.extract (r : BlockTxsRes) : List RawTx :=
  match r.blockTransactions with
  | some l => l
  | none =>
    match r.extrinsics with
    | some l => l
    | none =>
      match r.dataBlockTransactions with
      | some l => l
      | none => r.dataExtrinsics.getD []

/-- Embeds `HttpProvider.getLatestBlocks(limit)` as a function of the
`tryQueries` outcome `res`. -/
def getLatestBlocks (now : Nat) (res : Option BlocksRes) (limit : Int) :
    List Block :=
  match res with
  | none => MockProvider.getLatestBlocks now limit
  | some r =>
    let blocks := r.extract.filterMap (mapBlock now)
    if blocks.isEmpty then MockProvider.getLatestBlocks now limit else blocks

/-- Embeds `HttpProvider.getLatestTransactions(limit)`. -/
def getLatestTransactions (now : Nat) (res : Option TxListRes) (limit : Int) :
    List Transaction :=
  match res with
  | none => MockProvider.getLatestTransactions now limit
  | some r =>
    let txs := r.extract.filterMap mapTransaction
    if txs.isEmpty then MockProvider.getLatestTransactions now limit else txs

/-- The `nextCursor` computation of the indexer pagers:
`items.length === limit ? (offset + limit).toString() : undefined`,
where `offset` is the parsed cursor (`"NaN"` when the parse failed). -/
def pageNextCursor (cursor : Option String) (itemsLen : Nat) : Option String :=
  if itemsLen == 20 then
    some (match parseCursor cursor with
          | some o => toString (o + 20)
          | none => "NaN")
  else none

/-- Embeds `HttpProvider.getBlocksPage(cursor)`. -/
def getBlocksPage (now : Nat) (res : Option BlocksRes) (cursor : Option String) :
    Page Block :=
  match res with
  | none => MockProvider.getBlocksPage now cursor
  | some r =>
    let items := r.extract.filterMap (mapBlock now)
    if items.isEmpty then MockProvider.getBlocksPage now cursor
    else { items := items, nextCursor := pageNextCursor cursor items.length }

/-- Embeds `HttpProvider.getBlockByHashOrHeight(id)`. -/
def getBlockByHashOrHeight (now : Nat) (res : Option BlockRes) (id : String) :
    Option Block :=
  match res with
  | none => MockProvider.getBlockByHashOrHeight now id
  | some r =>
    match r.extract with
    | none => MockProvider.getBlockByHashOrHeight now id
    | some bd =>
      match mapBlock now bd with
      | some b => some b
      | none => MockProvider.getBlockByHashOrHeight now id

/-- Embeds `HttpProvider.getTransactionsPage(cursor)`. -/
def getTransactionsPage (now : Nat) (res : Option TxListRes)
    (cursor : Option String) : Page Transaction :=
  match res with
  | none => MockProvider.getTransactionsPage now cursor
  | some r =>
    let items := r.extract.filterMap mapTransaction
    if items.isEmpty then MockProvider.getTransactionsPage now cursor
    else { items := items, nextCursor := pageNextCursor cursor items.length }

/-- Embeds `HttpProvider.getTransactionByHash(hash)`. -/
def getTransactionByHash (now : Nat) (res : Option TxRes) (hash : String) :
    Option Transaction :=
  match res with
  | none => MockProvider.getTransactionByHash now hash
  | some r =>
    match r.extract with
    | none => MockProvider.getTransactionByHash now hash
    | some td =>
      match mapTransaction td with
      | some t => some t
      | none => MockProvider.getTransactionByHash now hash

/-- Embeds `HttpProvider.getAddressSummary(addr)`. -/
def getAddressSummary (res : Option AddrRes) (addr : String) :
    Option AddressSummary :=
  match res with
  | none => MockProvider.getAddressSummary addr
  | some r =>
    match r.extract with
    | none => MockProvider.getAddressSummary addr
    | some d =>
      let address := (jsOrS (jsOrS d.address d.id) (some addr)).getD addr
      let balance : Option String :=
        match d.balance with
        | some (JsLit.jstr s) => some s
        | some (JsLit.jnum n) => some (toString n)
        | _ =>
          match d.balances with
          | some bs =>
            match bs.free with
            | some v => if v.truthy then some v.render else none
            | none => none
          | none => none
      some { address := address
             balance := balance
             txCount := jsOrN (jsOrN d.txCount d.transactionCount)
                          d.transactionsCount }

/-- Embeds `HttpProvider.getBlockTransactions(id, cursor)`.  `res` is the outcome
of this operation's own queries; `lookupRes` is the outcome of the query
performed by the nested `getBlockByHashOrHeight(id)` call on the fallback
paths. -/
def getBlockTransactions (now : Nat) (res : Option BlockTxsRes)
    (lookupRes : Option BlockRes) (id : String) (cursor : Option String) :
    Page Transaction :=
  match res with
  | none =>
    match getBlockByHashOrHeight now lookupRes id with
    | none => { items := [], nextCursor := none }
    | some _ => MockProvider.getBlockTransactions now id cursor
  | some r =>
    let items := r.extract.filterMap mapTransaction
    if items.isEmpty then
      match getBlockByHashOrHeight now lookupRes id with
      | none => { items := [], nextCursor := none }
      | some _ => MockProvider.getBlockTransactions now id cursor
    else { items := items, nextCursor := pageNextCursor cursor items.length }

end HttpProvider

/-! ## RPC-only `HttpProvider` (`src/unnamed/part_003`)

The chain node is abstracted as an oracle: a tip height, a
height-to-hash resolver (`api.rpc.chain.getBlockHash`, which itself never
rejects — it answers a zero hash for out-of-range heights), a
hash-to-block resolver (`api.rpc.chain.getBlock` plus
`api.query.system.events.at`), and a predicate `known` telling which hash
strings `api.rpc.chain.getBlock` resolves at all: for a malformed or
unknown hash the call rejects, and the id-based operations of this layer
have no catch, so that rejection surfaces to the caller.  The scan loops
fetch only node-produced hashes of finalized heights at or below the tip,
which a consistent node always resolves; their fetches are therefore
embedded through `blockOf` directly.  Per-extrinsic fields are those the
code reads.  `rec.phase?.isApplyExtrinsic` together with
`rec.phase.asApplyExtrinsic.toNumber()` is modelled as
`applyExtrinsic : Option Nat`. -/

/-- One extrinsic of a fetched block body.  `arg0` is the millisecond value
`Number(ext.method.args[0].toString())` of a timestamp-setting extrinsic;
`none` covers a missing or non-numeric argument, where the `try` block
throws and the timestamp keeps its default. -/
structure Extrinsic where
  hashHex : String
  sec : String
  arg0 : Option Nat
  encodedLength : Option Int
deriving DecidableEq, Repr

/-- One event record: the apply-extrinsic phase index (if any) and the
event's section/method names. -/
structure EventRec where
  applyExtrinsic : Option Nat
  evSection : String
  evMethod : String
deriving DecidableEq, Repr

/-- A fetched block: body extrinsics, correlated event log, and the header
number read by the hash branch of `getBlockByHashOrHeight`. -/
structure ChainBlock where
  extrinsics : List Extrinsic
  events : List EventRec
  headerNumber : Nat
deriving DecidableEq, Repr

/-- The chain-node oracle.  `blockOf h` is the block `getBlock(h)`
resolves to when it resolves; `known h` is whether it resolves (`false`
models the rejected promise for a malformed or unknown hash). -/
structure Chain where
  tip : Nat
  hashAt : Nat → String
  blockOf : String → ChainBlock
  known : String → Bool

namespace RpcProvider

/-- The timestamp extracted from a block body: the first extrinsic with
`method.section === 'timestamp'`, ISO-rendered; `none` when there is no
such extrinsic or its argument is unusable. -/
def extrinsicTimestamp (exts : List Extrinsic) : Option String :=
  ((exts.find? (fun e => e.sec == "timestamp")).bind (·.arg0)).map isoString

/-- Embeds `HttpProvider.getBlockByHeight(height)` of the RPC layer (`now` is the
clock used for the default timestamp). -/
def getBlockByHeight (c : Chain) (now : Nat) (height : Nat) : Block :=
  let hash := c.hashAt height
  let blk := c.blockOf hash
  { height := (height : Int)
    hash := hash
    timestamp := (extrinsicTimestamp blk.extrinsics).getD (isoString now)
    txCount := (blk.extrinsics.length : Int) }

/-- The status assigned to the extrinsic at index `idx` from the event log:
phase-correlated `system.ExtrinsicSuccess` wins, then phase-correlated
`system.ExtrinsicFailed`, else pending. -/
def statusFromEvents (events : List EventRec) (idx : Nat) : TxStatus :=
  let related := events.filter (fun r => r.applyExtrinsic == some idx)
  if related.any (fun r => r.evSection == "system" && r.evMethod == "ExtrinsicSuccess")
  then TxStatus.success
  else if related.any (fun r => r.evSection == "system" && r.evMethod == "ExtrinsicFailed")
  then TxStatus.failed
  else TxStatus.pending

/-- Embeds `HttpProvider.mapExtrinsicsForBlock(blockHeight, blockHashHex)`. -/
def mapExtrinsicsForBlock (c : Chain) (blockHeight : Nat) (blockHashHex : String) :
    List Transaction :=
  let blk := c.blockOf blockHashHex
  let blockTimestamp := extrinsicTimestamp blk.extrinsics
  blk.extrinsics.enum.map (fun p =>
    { hash := p.2.hashHex
      status := statusFromEvents blk.events p.1
      blockHeight := some (blockHeight : Int)
      timestamp := blockTimestamp
      size := p.2.encodedLength })

/-- Embeds `HttpProvider.getLatestBlocks(limit)` of the RPC layer: heights from
the tip down, `limit` of them, stopping at height 0. -/
def getLatestBlocks (c : Chain) (now : Nat) (limit : Nat) : List Block :=
  let heights := (List.range limit).map (fun i => (c.tip : Int) - i)
    |>.takeWhile (fun h => 0 ≤ h)
  heights.map (fun h => getBlockByHeight c now h.toNat)

/-- Embeds `HttpProvider.getBlocksPage(cursor)` of the RPC layer.  The heights
loop `h = tip - offset - i`, breaking below zero; `nextCursor` is set iff
a full page of heights was produced.  A cursor whose `parseInt` is `NaN`
produces `NaN` heights, and the block fetch for them fails: that thrown
path is `none`. -/
def getBlocksPage (c : Chain) (now : Nat) (cursor : Option String) :
    Option (Page Block) :=
  match parseCursor cursor with
  | none => none
  | some offset =>
    let heights := (List.range 20).map (fun i => (c.tip : Int) - offset - i)
      |>.takeWhile (fun h => 0 ≤ h)
    some { items := heights.map (fun h => getBlockByHeight c now h.toNat)
           nextCursor :=
             if heights.length == 20 then some (toString (offset + 20)) else none }

/-- Embeds `HttpProvider.getBlockByHashOrHeight(id)` of the RPC layer: a
`/^\d+$/` id resolves through `getBlockHash(height)` and the block at that
height is fetched — `getBlock` rejects when the node does not resolve the
resolved hash (an out-of-range height yields the unresolvable zero hash);
any other id is treated as a block hash, fetched directly by `getBlock`,
which rejects for a malformed or unknown hash.  There is no catch, so a
rejection (`Except.error`) surfaces to the caller; `.ok none` is the
source's unreachable `height === undefined || !hashHex` guard. -/
def getBlockByHashOrHeight (c : Chain) (now : Nat) (id : String) :
    Except Unit (Option Block) :=
  if isNumericStr id then
    match parseIntJs id with
    | some h =>
      if c.known (c.hashAt h.toNat) then
        Except.ok (some (getBlockByHeight c now h.toNat))
      else Except.error ()
    | none => Except.ok none
  else
    if c.known id then
      Except.ok (some (getBlockByHeight c now (c.blockOf id).headerNumber))
    else Except.error ()

/-- One backward scan step collecting transactions newest-first
(`getLatestTransactions` / `getTransactionsPage` loop):
`while (acc.length < want && h >= 0 && scanned < maxScan)`, pushing the
reversed extrinsics of each block.  `fuel` is `maxScan - scanned`. -/
def collectBackward (c : Chain) (want : Nat) : Int → Nat →
    List Transaction → List Transaction
  | _, 0, acc => acc
  | h, fuel + 1, acc =>
    if acc.length < want ∧ 0 ≤ h then
      let items := mapExtrinsicsForBlock c h.toNat (c.hashAt h.toNat)
      collectBackward c want (h - 1) fuel (acc ++ items.reverse)
    else acc

/-- Embeds `HttpProvider.getLatestTransactions(limit)` of the RPC layer: bounded
backward scan (200 blocks), truncated to `limit`. -/
def getLatestTransactions (c : Chain) (limit : Nat) : List Transaction :=
  (collectBackward c limit c.tip 200 []).take limit

/-- Embeds `HttpProvider.getTransactionsPage(cursor)` of the RPC layer. -/
def getTransactionsPage (c : Chain) (cursor : Option String) :
    Option (Page Transaction) :=
  match parseCursor cursor with
  | none => none
  | some offset =>
    let want := (offset + 20).toNat
    let collected := collectBackward c want c.tip 200 []
    some { items := jsSlice collected offset (offset + 20)
           nextCursor :=
             if (collected.length : Int) > offset + 20
             then some (toString (offset + 20)) else none }

/-- The bounded backward scan of `getTransactionByHash`: while
`h >= 0 && scanned < 500`, fetch the block at `h` and look for a
case-insensitive hash match.  Returns the result together with the number
of block fetches performed. -/
def scanTxByHash (c : Chain) (target : String) : Int → Nat →
    Option Transaction × Nat
  | _, 0 => (none, 0)
  | h, fuel + 1 =>
    if 0 ≤ h then
      let items := mapExtrinsicsForBlock c h.toNat (c.hashAt h.toNat)
      match items.find? (fun tx => tx.hash.toLower == target.toLower) with
      | some tx => (some tx, 1)
      | none =>
        let r := scanTxByHash c target (h - 1) fuel
        (r.1, r.2 + 1)
    else (none, 0)

/-- Embeds `HttpProvider.getTransactionByHash(hash)` of the RPC layer. -/
def getTransactionByHash (c : Chain) (hash : String) : Option Transaction :=
  (scanTxByHash c hash c.tip 500).1

/-- Embeds `HttpProvider.getAddressSummary` of the RPC layer: unsupported, always
`null`. -/
def getAddressSummary (_addr : String) : Option AddressSummary :=
  none

/-- Embeds `HttpProvider.getBlockTransactions(id, cursor)` of the RPC layer.
`none` is the thrown path: a numeric id whose resolved hash `getBlock`
does not resolve, a non-numeric id `getBlock` rejects (no catch, the
rejection surfaces), or a `NaN` cursor. -/
def getBlockTransactions (c : Chain) (id : String) (cursor : Option String) :
    Option (Page Transaction) :=
  let resolved : Option (Nat × String) :=
    if isNumericStr id then
      match parseIntJs id with
      | some h =>
        if c.known (c.hashAt h.toNat) then some (h.toNat, c.hashAt h.toNat)
        else none
      | none => none
    else
      if c.known id then some ((c.blockOf id).headerNumber, id) else none
  match resolved with
  | none => none
  | some hv =>
    let all := mapExtrinsicsForBlock c hv.1 hv.2
    match parseCursor cursor with
    | none => none
    | some offset =>
      some { items := jsSlice all offset (offset + 20)
             nextCursor :=
               if (all.length : Int) > offset + 20
               then some (toString (offset + 20)) else none }

end RpcProvider

/-! ## Provider factories and constructors

`env.ts` resolves both endpoint variables with a `""` default, so "not
configured" is exactly the empty string. -/

/-- Which concrete provider a factory produced. -/
inductive ProviderKind where
  | http
  | mock
deriving DecidableEq, Repr

/-- The `HttpProvider` constructor of `data.ts`: throws iff both endpoints
are empty. -/
def httpProviderCtor (indexerUrl rpcUrl : String) : Except String Unit :=
  if !truthyS (some indexerUrl) && !truthyS (some rpcUrl) then
    Except.error "Missing Midnight network endpoints."
  else Except.ok ()

/-- Embeds `getProvider()` of `data.ts`: prefer `HttpProvider` when any endpoint
is configured, catching a constructor failure by falling back to
`MockProvider`; otherwise `MockProvider`. -/
def getProviderData (indexerUrl rpcUrl : String) : ProviderKind :=
  if truthyS (some indexerUrl) || truthyS (some rpcUrl) then
    match httpProviderCtor indexerUrl rpcUrl with
    | Except.ok _ => ProviderKind.http
    | Except.error _ => ProviderKind.mock
  else ProviderKind.mock

/-- The `HttpProvider` constructor of the RPC-only layer
(`src/unnamed/part_003`): throws iff the RPC endpoint is empty. -/
def rpcProviderCtor (rpcUrl : String) : Except String Unit :=
  if !truthyS (some rpcUrl) then
    Except.error "Missing Midnight RPC endpoint."
  else Except.ok ()

/-- Embeds `getProvider()` of the RPC-only layer: always constructs
`HttpProvider`; a constructor failure propagates to the caller. -/
def getProviderRpc (rpcUrl : String) : Except String ProviderKind :=
  (rpcProviderCtor rpcUrl).map (fun _ => ProviderKind.http)

/-! ## Helper lemmas -/

theorem jsSlice_nil {α : Type} (s e : Int) : jsSlice ([] : List α) s e = [] := by
  simp [jsSlice]

theorem jsSlice_nonneg {α : Type} (l : List α) {s e : Int}
    (hs : 0 ≤ s) (he : 0 ≤ e) :
    jsSlice l s e = (l.drop s.toNat).take (e.toNat - s.toNat) := by
  unfold jsSlice
  simp only [if_neg (not_lt.mpr hs), if_neg (not_lt.mpr he)]
  have hlen : (0 : Int) ≤ (l.length : Int) := by positivity
  have hmins : (min s (l.length : Int)).toNat = min s.toNat l.length := by omega
  have hmine : (min e (l.length : Int)).toNat = min e.toNat l.length := by omega
  rw [hmins, hmine]
  rcases le_total s.toNat l.length with h1 | h1
  · rw [min_eq_left h1]
    rcases le_total e.toNat l.length with h2 | h2
    · rw [min_eq_left h2]
    · rw [min_eq_right h2]
      have hdl : (l.drop s.toNat).length = l.length - s.toNat := by
        simp [List.length_drop]
      rw [List.take_of_length_le (by omega), List.take_of_length_le (by omega)]
  · rw [min_eq_right h1, List.drop_length, List.drop_eq_nil_of_le h1]
    simp

namespace MockProvider

theorem mockBlocks_length (now : Nat) : (mockBlocks now).length = 100 := by
  simp [mockBlocks]

theorem mockTransactions_length (now : Nat) :
    (mockTransactions now).length = 200 := by
  simp [mockTransactions]

theorem mockBlocks_map_height (now : Nat) :
    (mockBlocks now).map (·.height) =
      (List.range 100).map (fun i => ((12345 - i : Nat) : Int)) := by
  simp only [mockBlocks, List.map_map]; rfl

/-- Every confirmed mock transaction sits at one of the corpus heights
`12345 - j`, `j < 100` (in fact `j ≤ 39`). -/
theorem mockTx_blockHeight_bound (now : Nat) :
    ∀ tx ∈ mockTransactions now, ∀ k : Int,
      tx.blockHeight = some k → ∃ j : Nat, j < 100 ∧ k = ((12345 - j : Nat) : Int) := by
  intro tx htx k hk
  simp only [mockTransactions, List.mem_map, List.mem_range] at htx
  obtain ⟨i, hi, rfl⟩ := htx
  by_cases h160 : i < 160
  · refine ⟨i / 4, by omega, ?_⟩
    simp only [generateMockTransaction, if_pos h160, Option.map_some] at hk
    exact (Option.some_inj.mp hk).symm
  · simp [generateMockTransaction, if_neg h160] at hk

/-- If no mock block has height `h`, then `h` is none of the heights
`12345 - j`, `j < 100`. -/
theorem mock_no_height {now : Nat} {h : Int}
    (hn : (mockBlocks now).find? (fun b => b.height == h) = none) :
    ∀ j : Nat, j < 100 → ((12345 - j : Nat) : Int) ≠ h := by
  intro j hj
  rw [List.find?_eq_none] at hn
  have hmem : generateMockBlock now (12345 - j) ∈ mockBlocks now := by
    simp only [mockBlocks, List.mem_map, List.mem_range]
    exact ⟨j, hj, rfl⟩
  have := hn _ hmem
  simpa [generateMockBlock] using this

/-- If `h` is outside the corpus heights, no mock transaction is confirmed
at `h`. -/
theorem mockTxFilter_empty {now : Nat} {h : Int}
    (hno : ∀ j : Nat, j < 100 → ((12345 - j : Nat) : Int) ≠ h) :
    (mockTransactions now).filter (fun tx => tx.blockHeight == some h) = [] := by
  rw [List.filter_eq_nil_iff]
  intro tx htx
  simp only [beq_iff_eq, Option.some_inj]
  intro hbh
  obtain ⟨j, hj, rfl⟩ := mockTx_blockHeight_bound now tx htx h hbh
  exact hno j hj rfl

/-- When the mock lookup finds nothing and the cursor offset is at least
`-20`, the mock block-transactions page is empty with no cursor. -/
theorem mockBlockTxs_of_lookup_none {now : Nat} {id : String}
    {cursor : Option String}
    (hnone : getBlockByHashOrHeight now id = none)
    (hcur : ∀ o : Int, parseCursor cursor = some o → -20 ≤ o) :
    getBlockTransactions now id cursor = { items := [], nextCursor := none } := by
  unfold getBlockTransactions
  unfold getBlockByHashOrHeight at hnone
  cases hp : parseIntJs id with
  | some h =>
    simp only [hp] at hnone ⊢
    have hfe := @mockTxFilter_empty now h (@mock_no_height now h hnone)
    rw [hfe]
    cases hc : parseCursor cursor with
    | none => simp [hc]
    | some ci =>
      have hci := hcur ci hc
      simp only [hc, jsSlice_nil, List.length_nil, Nat.cast_zero]
      rw [if_neg (by omega)]
  | none =>
    simp only [hp] at hnone ⊢
    simp [hnone]

end MockProvider

/-! ## Claim theorems -/

/-- C5: On the 100-block mock corpus with tip height 12345,
`getBlocksPage` with no cursor returns the blocks of heights 12345 down to
12326 with nextCursor "20"; `getBlocksPage("20")` returns heights 12325
down to 12306 with nextCursor "40"; and `getBlocksPage("80")` returns 20
items with nextCursor unset. -/
theorem mock_blocksPage_scenario (now : Nat) :
    ((MockProvider.getBlocksPage now none).items.map (·.height) =
      (List.range 20).map (fun i => ((12345 - i : Nat) : Int))) ∧
    (MockProvider.getBlocksPage now none).nextCursor = some "20" ∧
    ((MockProvider.getBlocksPage now (some "20")).items.map (·.height) =
      (List.range 20).map (fun i => ((12325 - i : Nat) : Int))) ∧
    (MockProvider.getBlocksPage now (some "20")).nextCursor = some "40" ∧
    (MockProvider.getBlocksPage now (some "80")).items.length = 20 ∧
    (MockProvider.getBlocksPage now (some "80")).nextCursor = none := by
  have h20 : parseCursor (some "20") = some 20 := by decide
  have h80 : parseCursor (some "80") = some 80 := by decide
  have h0 : parseCursor none = some 0 := rfl
  have hlen : ((MockProvider.mockBlocks now).length : Int) = 100 := by
    rw [MockProvider.mockBlocks_length]; rfl
  unfold MockProvider.getBlocksPage
  simp only [h0, h20, h80, hlen]
  refine ⟨?_, ?_, ?_, ?_, ?_, ?_⟩
  · rw [jsSlice_nonneg _ (by norm_num) (by norm_num)]
    rw [List.map_take, List.map_drop, MockProvider.mockBlocks_map_height]
    decide
  · decide
  · rw [jsSlice_nonneg _ (by norm_num) (by norm_num)]
    rw [List.map_take, List.map_drop, MockProvider.mockBlocks_map_height]
    decide
  · decide
  · rw [jsSlice_nonneg _ (by norm_num) (by norm_num)]
    rw [List.length_take, List.length_drop, MockProvider.mockBlocks_length]
    decide
  · decide

set_option maxRecDepth 100000

/-- C3 counterexample: the Mock Generator is seeded with the current
calendar date, so two constructions at clock readings one day apart
disagree: the block at height 12345 gets a different 64-character hash and
the corpora differ already at their head. -/
theorem mock_determinism_counterexample :
    (generateMockBlock 1760227200000 12345).hash ≠
      (generateMockBlock 1760313600000 12345).hash ∧
    (MockProvider.mockBlocks 1760227200000).head? ≠
      (MockProvider.mockBlocks 1760313600000).head? := by
  constructor
  · decide
  · decide

/-- C3 amended: the corpus is a pure function of the construction-time
clock reading; the hash (and txCount) of the mock block at height `h`
depends only on the UTC calendar date of `now − 2·h` minutes, and the hash
is always a 64-character string. -/
theorem mock_determinism_amended (now1 now2 h : Nat)
    (hday : isoDateString (now1 - h * 120000) = isoDateString (now2 - h * 120000)) :
    (generateMockBlock now1 h).hash = (generateMockBlock now2 h).hash ∧
    (generateMockBlock now1 h).txCount = (generateMockBlock now2 h).txCount ∧
    (generateMockBlock now1 h).hash.length = 64 := by
  refine ⟨?_, ?_, ?_⟩
  · simp only [generateMockBlock, hday]
  · simp only [generateMockBlock, hday]
  · simp [generateMockBlock, mockHash64, String.length]

/-- C3 amended, witness: two clock readings one second apart on the same
day give the same block-12345 hash. -/
theorem mock_determinism_amended_witness :
    (generateMockBlock 1760227200000 12345).hash =
      (generateMockBlock 1760227201000 12345).hash := by
  exact (mock_determinism_amended 1760227200000 1760227201000 12345 (by decide)).1

/-- C10: in the Mock Generator's transaction corpus, every transaction with
a defined blockHeight has status "success" and a defined timestamp, and
every "failed" or "pending" transaction has undefined blockHeight and
undefined timestamp. -/
theorem mock_tx_status_invariant (now : Nat) :
    ∀ tx ∈ MockProvider.mockTransactions now,
      (tx.blockHeight ≠ none → tx.status = TxStatus.success ∧ tx.timestamp ≠ none) ∧
      ((tx.status = TxStatus.failed ∨ tx.status = TxStatus.pending) →
        tx.blockHeight = none ∧ tx.timestamp = none) := by
  intro tx htx
  simp only [MockProvider.mockTransactions, List.mem_map, List.mem_range] at htx
  obtain ⟨i, hi, rfl⟩ := htx
  by_cases h160 : i < 160
  · have hk : (12345 - i / 4 : Nat) ≠ 0 := by omega
    constructor
    · intro _
      constructor
      · simp [generateMockTransaction, if_pos h160, hk]
      · simp [generateMockTransaction, if_pos h160, hk]
    · intro hst
      exfalso
      rcases hst with hc | hc <;>
        simp [generateMockTransaction, if_pos h160, hk] at hc
  · constructor
    · intro hbh
      exfalso
      simp [generateMockTransaction, if_neg h160] at hbh
    · intro _
      simp [generateMockTransaction, if_neg h160]

/-- C10 witness: the first corpus transaction is confirmed at height 12345
and indeed has status success and a timestamp. -/
theorem mock_tx_status_invariant_witness :
    (generateMockTransaction 1760227200000 0 (some 12345)).status = TxStatus.success ∧
    (generateMockTransaction 1760227200000 0 (some 12345)).timestamp ≠ none := by
  have hmem : generateMockTransaction 1760227200000 0 (some 12345) ∈
      MockProvider.mockTransactions 1760227200000 := by
    simp only [MockProvider.mockTransactions, List.mem_map, List.mem_range]
    exact ⟨0, by norm_num, rfl⟩
  exact (mock_tx_status_invariant 1760227200000 _ hmem).1 (by decide)

/-! ### RPC scanner claims (C6, C7) -/

/-- A phase-correlated `system` event with the given method name for
operation index `idx` (§ "Phase-correlated event"). -/
def hasMarker (events : List EventRec) (idx : Nat) (meth : String) : Prop :=
  ∃ r ∈ events, r.applyExtrinsic = some idx ∧ r.evSection = "system" ∧ r.evMethod = meth

theorem anyMarker_iff (events : List EventRec) (idx : Nat) (meth : String) :
    ((events.filter (fun r => r.applyExtrinsic == some idx)).any
      (fun r => r.evSection == "system" && r.evMethod == meth) = true) ↔
    hasMarker events idx meth := by
  rw [List.any_eq_true]
  constructor
  · rintro ⟨r, hr, hp⟩
    rw [List.mem_filter] at hr
    rw [Bool.and_eq_true] at hp
    refine ⟨r, hr.1, ?_, ?_, ?_⟩
    · simpa using hr.2
    · simpa using hp.1
    · simpa using hp.2
  · rintro ⟨r, hr, h1, h2, h3⟩
    exact ⟨r, List.mem_filter.mpr ⟨hr, by simp [h1]⟩, by simp [h2, h3]⟩

theorem statusFromEvents_spec (events : List EventRec) (idx : Nat) :
    (RpcProvider.statusFromEvents events idx = TxStatus.success ↔
      hasMarker events idx "ExtrinsicSuccess") ∧
    (RpcProvider.statusFromEvents events idx = TxStatus.failed ↔
      ¬ hasMarker events idx "ExtrinsicSuccess" ∧ hasMarker events idx "ExtrinsicFailed") ∧
    (RpcProvider.statusFromEvents events idx = TxStatus.pending ↔
      ¬ hasMarker events idx "ExtrinsicSuccess" ∧ ¬ hasMarker events idx "ExtrinsicFailed") := by
  rcases Classical.em (hasMarker events idx "ExtrinsicSuccess") with hs | hs
  · have hb := (anyMarker_iff events idx "ExtrinsicSuccess").mpr hs
    simp [RpcProvider.statusFromEvents, hb, hs]
  · have hb : (events.filter (fun r => r.applyExtrinsic == some idx)).any
        (fun r => r.evSection == "system" && r.evMethod == "ExtrinsicSuccess") = false := by
      rw [← Bool.not_eq_true]
      exact fun hc => hs ((anyMarker_iff events idx "ExtrinsicSuccess").mp hc)
    rcases Classical.em (hasMarker events idx "ExtrinsicFailed") with hf | hf
    · have hbf := (anyMarker_iff events idx "ExtrinsicFailed").mpr hf
      simp [RpcProvider.statusFromEvents, hb, hbf, hs, hf]
    · have hbf : (events.filter (fun r => r.applyExtrinsic == some idx)).any
          (fun r => r.evSection == "system" && r.evMethod == "ExtrinsicFailed") = false := by
        rw [← Bool.not_eq_true]
        exact fun hc => hf ((anyMarker_iff events idx "ExtrinsicFailed").mp hc)
      simp [RpcProvider.statusFromEvents, hb, hbf, hs, hf]

/-- C6: for every block and operation index `i`, the RPC scanner assigns
the transaction at index `i` status "success" iff the event log contains a
phase-correlated success-marker for `i`; "failed" iff it contains a
phase-correlated failure-marker (and no success-marker); "pending" iff
neither; success takes precedence when both markers correlate to `i`. -/
theorem status_correlation (c : Chain) (bh : Nat) (hh : String) (idx : Nat)
    (tx : Transaction)
    (htx : (RpcProvider.mapExtrinsicsForBlock c bh hh)[idx]? = some tx) :
    (tx.status = TxStatus.success ↔
      hasMarker (c.blockOf hh).events idx "ExtrinsicSuccess") ∧
    (tx.status = TxStatus.failed ↔
      ¬ hasMarker (c.blockOf hh).events idx "ExtrinsicSuccess" ∧
      hasMarker (c.blockOf hh).events idx "ExtrinsicFailed") ∧
    (tx.status = TxStatus.pending ↔
      ¬ hasMarker (c.blockOf hh).events idx "ExtrinsicSuccess" ∧
      ¬ hasMarker (c.blockOf hh).events idx "ExtrinsicFailed") := by
  have hstat : tx.status = RpcProvider.statusFromEvents (c.blockOf hh).events idx := by
    unfold RpcProvider.mapExtrinsicsForBlock at htx
    rw [List.getElem?_map, List.getElem?_enum] at htx
    cases he : (c.blockOf hh).extrinsics[idx]? with
    | none => rw [he] at htx; simp at htx
    | some ext =>
      rw [he] at htx
      simp at htx
      rw [← htx]
  rw [hstat]
  exact statusFromEvents_spec (c.blockOf hh).events idx

/-- A stub chain whose single fetched block holds one extrinsic with a
phase-correlated success event. -/
def oneTxChain : Chain :=
  { tip := 5
    hashAt := fun _ => "0xabc"
    blockOf := fun _ =>
      { extrinsics := [{ hashHex := "0xdead", sec := "", arg0 := none,
                         encodedLength := some 10 }]
        events := [{ applyExtrinsic := some 0, evSection := "system",
                     evMethod := "ExtrinsicSuccess" }]
        headerNumber := 5 }
    known := fun _ => true }

/-- C6 witness: on `oneTxChain` the scanner marks the single operation
successful. -/
theorem status_correlation_witness :
    ((RpcProvider.mapExtrinsicsForBlock oneTxChain 5 "0xabc")[0]?.map
      Transaction.status) = some TxStatus.success := by
  cases htx : (RpcProvider.mapExtrinsicsForBlock oneTxChain 5 "0xabc")[0]? with
  | none => exact absurd htx (by decide)
  | some tx =>
    have hs := (status_correlation oneTxChain 5 "0xabc" 0 tx htx).1.mpr
      ⟨{ applyExtrinsic := some 0, evSection := "system",
         evMethod := "ExtrinsicSuccess" }, by simp [oneTxChain], rfl, rfl, rfl⟩
    simp [hs]

namespace RpcProvider

theorem scanTxByHash_count_le (c : Chain) (t : String) (h : Int) (fuel : Nat) :
    (scanTxByHash c t h fuel).2 ≤ fuel := by
  induction fuel generalizing h with
  | zero => simp [scanTxByHash]
  | succ f ih =>
    unfold scanTxByHash
    by_cases hh : 0 ≤ h
    · rw [if_pos hh]
      cases hf : (mapExtrinsicsForBlock c h.toNat (c.hashAt h.toNat)).find?
          (fun tx => tx.hash.toLower == t.toLower) with
      | some tx => simp only [hf]; omega
      | none =>
        simp only [hf]
        have := ih (h - 1)
        omega
    · rw [if_neg hh]; simp

theorem scanTxByHash_none (c : Chain) (t : String) (h : Int) (fuel : Nat)
    (hno : ∀ k : Nat, (k : Int) ≤ h → h - (fuel : Int) < (k : Int) →
      ∀ tx ∈ mapExtrinsicsForBlock c k (c.hashAt k), tx.hash.toLower ≠ t.toLower) :
    (scanTxByHash c t h fuel).1 = none := by
  induction fuel generalizing h with
  | zero => simp [scanTxByHash]
  | succ f ih =>
    unfold scanTxByHash
    by_cases hh : 0 ≤ h
    · rw [if_pos hh]
      have hk0 : (h.toNat : Int) ≤ h := by omega
      have hcur := hno h.toNat hk0 (by push_cast; omega)
      have hfind : (mapExtrinsicsForBlock c h.toNat (c.hashAt h.toNat)).find?
          (fun tx => tx.hash.toLower == t.toLower) = none := by
        rw [List.find?_eq_none]
        intro tx htx
        simpa using hcur tx htx
      simp only [hfind]
      exact ih (h - 1) (fun k hk1 hk2 => hno k (by omega) (by push_cast at hk2 ⊢; omega))
    · rw [if_neg hh]

theorem scanTxByHash_some (c : Chain) (t : String) (h : Int) (fuel : Nat)
    (tx : Transaction) (hfound : (scanTxByHash c t h fuel).1 = some tx) :
    tx.hash.toLower = t.toLower ∧
    ∃ k : Nat, (k : Int) ≤ h ∧ h - (fuel : Int) < (k : Int) ∧
      tx ∈ mapExtrinsicsForBlock c k (c.hashAt k) := by
  induction fuel generalizing h with
  | zero => simp [scanTxByHash] at hfound
  | succ f ih =>
    unfold scanTxByHash at hfound
    by_cases hh : 0 ≤ h
    · rw [if_pos hh] at hfound
      cases hf : (mapExtrinsicsForBlock c h.toNat (c.hashAt h.toNat)).find?
          (fun tx => tx.hash.toLower == t.toLower) with
      | some tx0 =>
        simp only [hf] at hfound
        obtain rfl : tx0 = tx := by simpa using hfound
        have hmem := List.mem_of_find?_eq_some hf
        have hpred := List.find?_some hf
        refine ⟨by simpa using hpred, h.toNat, by omega, by push_cast; omega, hmem⟩
      | none =>
        simp only [hf] at hfound
        obtain ⟨hmatch, k, hk1, hk2, hk3⟩ := ih (h - 1) hfound
        exact ⟨hmatch, k, by omega, by push_cast at hk2 ⊢; omega, hk3⟩
    · rw [if_neg hh] at hfound
      simp at hfound

/-- Completeness of the bounded scan: a case-insensitive match in some
visited block (at most `fuel` below `h`, height ≥ 0) guarantees a
non-null result. -/
theorem scanTxByHash_isSome (c : Chain) (t : String) (h : Int) (fuel : Nat)
    (hex : ∃ k : Nat, (k : Int) ≤ h ∧ h - (fuel : Int) < (k : Int) ∧
      ∃ tx ∈ mapExtrinsicsForBlock c k (c.hashAt k),
        tx.hash.toLower = t.toLower) :
    ((scanTxByHash c t h fuel).1).isSome = true := by
  induction fuel generalizing h with
  | zero =>
    obtain ⟨k, hk1, hk2, _⟩ := hex
    omega
  | succ f ih =>
    obtain ⟨k, hk1, hk2, tx, htx, hmatch⟩ := hex
    have hh : 0 ≤ h := le_trans (by positivity) hk1
    unfold scanTxByHash
    rw [if_pos hh]
    cases hf : (mapExtrinsicsForBlock c h.toNat (c.hashAt h.toNat)).find?
        (fun tx => tx.hash.toLower == t.toLower) with
    | some tx0 => simp only [hf]; rfl
    | none =>
      simp only [hf]
      have hkne : k ≠ h.toNat := by
        intro hkeq
        subst hkeq
        exact absurd (by simpa using hmatch)
          (List.find?_eq_none.mp hf tx htx)
      exact ih (h - 1) ⟨k, by omega, by push_cast at hk2 ⊢; omega, tx, htx, hmatch⟩

end RpcProvider

/-- C7: `getTransactionByHash` under the RPC scanner fetches at most 500
blocks scanning backward from the tip; it returns null when no
case-insensitive match exists within that window; any returned
transaction matches case-insensitively and lies in a scanned block; and
whenever a case-insensitive match exists within the 500-block window the
result is non-null. -/
theorem txByHash_bounded_scan (c : Chain) (target : String) :
    (RpcProvider.scanTxByHash c target c.tip 500).2 ≤ 500 ∧
    ((∀ k : Nat, k ≤ c.tip → c.tip - k < 500 →
        ∀ tx ∈ RpcProvider.mapExtrinsicsForBlock c k (c.hashAt k),
          tx.hash.toLower ≠ target.toLower) →
      RpcProvider.getTransactionByHash c target = none) ∧
    (∀ tx, RpcProvider.getTransactionByHash c target = some tx →
      tx.hash.toLower = target.toLower ∧
      ∃ k : Nat, k ≤ c.tip ∧ c.tip - k < 500 ∧
        tx ∈ RpcProvider.mapExtrinsicsForBlock c k (c.hashAt k)) ∧
    ((∃ k : Nat, k ≤ c.tip ∧ c.tip - k < 500 ∧
        ∃ tx ∈ RpcProvider.mapExtrinsicsForBlock c k (c.hashAt k),
          tx.hash.toLower = target.toLower) →
      (RpcProvider.getTransactionByHash c target).isSome = true) := by
  refine ⟨RpcProvider.scanTxByHash_count_le c target c.tip 500, ?_, ?_, ?_⟩
  · intro hno
    exact RpcProvider.scanTxByHash_none c target c.tip 500
      (fun k hk1 hk2 => hno k (by exact_mod_cast hk1) (by omega))
  · intro tx htx
    obtain ⟨hm, k, hk1, hk2, hk3⟩ :=
      RpcProvider.scanTxByHash_some c target c.tip 500 tx htx
    exact ⟨hm, k, by exact_mod_cast hk1, by omega, hk3⟩
  · rintro ⟨k, hk1, hk2, tx, htx, hmatch⟩
    exact RpcProvider.scanTxByHash_isSome c target c.tip 500
      ⟨k, by exact_mod_cast hk1, by push_cast; omega, tx, htx, hmatch⟩

/-- A chain whose blocks are all empty. -/
def emptyChain : Chain :=
  { tip := 1000000
    hashAt := fun _ => "0x00"
    blockOf := fun _ => { extrinsics := [], events := [], headerNumber := 0 }
    known := fun _ => true }

/-- C7 witness: on an all-empty chain the scan performs at most 500 fetches
and a lookup for an absent hash returns null; on `oneTxChain` a hash
matching the tip block's transaction yields a non-null result. -/
theorem txByHash_bounded_scan_witness :
    (RpcProvider.scanTxByHash emptyChain "abc" emptyChain.tip 500).2 ≤ 500 ∧
    RpcProvider.getTransactionByHash emptyChain "abc" = none ∧
    (RpcProvider.getTransactionByHash oneTxChain "0xdead").isSome = true := by
  refine ⟨(txByHash_bounded_scan emptyChain "abc").1, ?_, ?_⟩
  · apply (txByHash_bounded_scan emptyChain "abc").2.1
    intro k _ _ tx htx
    simp [RpcProvider.mapExtrinsicsForBlock, emptyChain] at htx
  · apply (txByHash_bounded_scan oneTxChain "0xdead").2.2.2
    refine ⟨5, by decide, by decide,
      { hash := "0xdead", status := TxStatus.success, blockHeight := some 5,
        timestamp := none, size := some 10 }, by decide, rfl⟩

/-- C8: provider construction fails with a ConfigurationError surfaced to
the caller iff a backend requiring an endpoint is selected with an empty
endpoint string.  The RPC-only factory selects an endpoint-requiring
backend unconditionally and fails exactly on an empty RPC endpoint; the
indexer-aware factory selects `HttpProvider` exactly when some endpoint is
configured, in which case its constructor always succeeds — so its
catch-and-fall-back-to-mock branch never converts a configuration failure
into a different backend. -/
theorem provider_construction_config (indexerUrl rpcUrl : String) :
    ((∃ e, getProviderRpc rpcUrl = Except.error e) ↔ rpcUrl = "") ∧
    (rpcUrl ≠ "" → getProviderRpc rpcUrl = Except.ok ProviderKind.http) ∧
    (getProviderData indexerUrl rpcUrl = ProviderKind.http ↔
      (indexerUrl ≠ "" ∨ rpcUrl ≠ "")) ∧
    (getProviderData indexerUrl rpcUrl = ProviderKind.mock ↔
      (indexerUrl = "" ∧ rpcUrl = "")) ∧
    ((∃ e, httpProviderCtor indexerUrl rpcUrl = Except.error e) ↔
      (indexerUrl = "" ∧ rpcUrl = "")) ∧
    ((indexerUrl ≠ "" ∨ rpcUrl ≠ "") → httpProviderCtor indexerUrl rpcUrl = Except.ok ()) := by
  by_cases h1 : indexerUrl = "" <;> by_cases h2 : rpcUrl = "" <;>
    simp [getProviderRpc, rpcProviderCtor, getProviderData, httpProviderCtor,
      truthyS, h1, h2, Except.map]

/-- C8 witness: with an RPC endpoint the RPC factory succeeds; with no
endpoints the indexer-aware factory yields the mock backend. -/
theorem provider_construction_config_witness :
    getProviderRpc "wss://node" = Except.ok ProviderKind.http ∧
    getProviderData "" "" = ProviderKind.mock := by
  constructor
  · exact (provider_construction_config "" "wss://node").2.1 (by decide)
  · exact (provider_construction_config "" "").2.2.2.1.mpr ⟨rfl, rfl⟩

/-- C9: field probing in `mapBlock` tests JS truthiness, not presence: a
record whose `height` is present but `0` (with no alternative height
field) is mapped to null and dropped from the page, and a present
`txCount` of `0` falls through to the alternative count fields. -/
theorem mapBlock_truthiness_drop (now : Nat) (d d2 : RawBlockData)
    (rest : List RawBlock)
    (hh : d.height = some 0) (hn : d.number = none) (hhd : d.header = none)
    (blk : Block) (n : Int)
    (h2t : d2.txCount = some 0) (h2c : d2.transactionCount = some n) (hn0 : n ≠ 0)
    (h2m : mapBlock now { block := none, self := d2 } = some blk) :
    mapBlock now { block := none, self := d } = none ∧
    ({ block := none, self := d } :: rest).filterMap (mapBlock now) =
      rest.filterMap (mapBlock now) ∧
    blk.txCount = n := by
  have hdrop : mapBlock now { block := none, self := d } = none := by
    simp [mapBlock, hh, hn, hhd, jsOrN, truthyN]
  refine ⟨hdrop, ?_, ?_⟩
  · rw [List.filterMap_cons, hdrop]
  · unfold mapBlock at h2m
    simp only [h2t, h2c] at h2m
    split at h2m
    · simp at h2m
    · split at h2m
      · simp at h2m
      · split at h2m
        · simp at h2m
        · split at h2m
          · simp at h2m
          · rw [Option.some_inj] at h2m
            rw [← h2m]
            simp [jsOrN, truthyN, hn0]

/-- An indexer block record with `height: 0` and no alternative height
fields. -/
def heightZeroRaw : RawBlockData :=
  { height := some 0, number := none, header := none, hash := some "h"
    blockHash := none, id := none, timestamp := some "t", time := none
    datetime := none, txCount := some 3, transactionCount := none
    extrinsicsCount := none, extrinsics := none }

/-- An indexer block record with `txCount: 0` and `transactionCount: 5`. -/
def txCountZeroRaw : RawBlockData :=
  { height := some 7, number := none, header := none, hash := some "h"
    blockHash := none, id := none, timestamp := some "t", time := none
    datetime := none, txCount := some 0, transactionCount := some 5
    extrinsicsCount := none, extrinsics := none }

/-- C9 witness: the height-0 record is dropped; the txCount-0 record maps
with `txCount = 5`. -/
theorem mapBlock_truthiness_drop_witness :
    mapBlock 0 { block := none, self := heightZeroRaw } = none ∧
    (mapBlock 0 { block := none, self := txCountZeroRaw }).map (·.txCount) =
      some 5 := by
  cases hm : mapBlock 0 { block := none, self := txCountZeroRaw } with
  | none => exact absurd hm (by decide)
  | some blk =>
    have h := mapBlock_truthiness_drop 0 heightZeroRaw txCountZeroRaw []
      rfl rfl rfl blk 5 rfl rfl (by decide) hm
    exact ⟨h.1, by simp [h.2.2]⟩

/-! ### Id resolution (C4) -/

theorem digit_not_whitespace {c : Char} (h : c.isDigit = true) :
    c.isWhitespace = false := by
  rcases hw : c.isWhitespace with _ | _
  · rfl
  · exfalso
    simp [Char.isWhitespace] at hw
    rcases hw with ((h1 | h1) | h1) | h1 <;> subst h1 <;> exact absurd h (by decide)

/-- A `/^\d+$/` id always parses: `parseInt` yields its (nonnegative)
digit value. -/
theorem parseIntJs_of_numeric {id : String} (h : isNumericStr id = true) :
    ∃ n : Nat, parseIntJs id = some (n : Int) := by
  rw [isNumericStr, Bool.and_eq_true] at h
  obtain ⟨hne, hall⟩ := h
  rw [List.all_eq_true] at hall
  cases hd : id.data with
  | nil =>
    exfalso
    have hid : id = "" := String.ext (by simp [hd])
    subst hid
    simp only [Bool.not_eq_true'] at hne
    exact absurd hne (by decide)
  | cons c cs =>
    have hcdig : c.isDigit = true := hall c (by rw [hd]; exact List.mem_cons_self c cs)
    have hdw : (c :: cs).dropWhile Char.isWhitespace = c :: cs := by
      rw [List.dropWhile_cons_of_neg]
      simp [digit_not_whitespace hcdig]
    have htw : (c :: cs).takeWhile Char.isDigit = c :: cs := by
      rw [List.takeWhile_eq_self_iff]
      intro x hx
      exact hall x (by rw [hd]; exact hx)
    unfold parseIntJs
    rw [hd, hdw]
    have hcm : c ≠ '-' := fun hcc => by subst hcc; exact absurd hcdig (by decide)
    have hcp : c ≠ '+' := fun hcc => by subst hcc; exact absurd hcdig (by decide)
    split
    next rest heq => exact absurd (List.head_eq_of_cons_eq heq) hcm
    next rest heq => exact absurd (List.head_eq_of_cons_eq heq) hcp
    next _ _ _ =>
      refine ⟨(c :: cs).foldl (fun a ch => a * 10 + (ch.toNat - 48)) 0, ?_⟩
      simp [digitsPrefixVal, htw]

/-- A chain whose node resolves no hash at all: every
`api.rpc.chain.getBlock` call rejects. -/
def unresolvedChain : Chain :=
  { tip := 5
    hashAt := fun _ => "0xaa"
    blockOf := fun _ => { extrinsics := [], events := [], headerNumber := 0 }
    known := fun _ => false }

/-- C4 counterexample: `"12345abc"` is not purely numeric, yet
`MockProvider.getBlockByHashOrHeight` resolves it as height 12345 (the
`parseInt` prefix), not as a hash — no mock block has that hash.  And in
the RPC backend the id `"zzz"`, matching nothing, does not yield null: the
uncaught `getBlock` rejection surfaces to the caller (for both lookup
operations). -/
theorem id_resolution_counterexample :
    isNumericStr "12345abc" = false ∧
    (MockProvider.getBlockByHashOrHeight 1760227200000 "12345abc").map (·.height) =
      some 12345 ∧
    RpcProvider.getBlockByHashOrHeight unresolvedChain 0 "zzz" = Except.error () ∧
    RpcProvider.getBlockTransactions unresolvedChain "zzz" none = none ∧
    (MockProvider.mockBlocks 1760227200000).find? (fun b => b.hash == "12345abc") =
      none := by
  refine ⟨by decide, by decide, rfl, rfl, ?_⟩
  rw [List.find?_eq_none]
  intro b hb
  simp only [MockProvider.mockBlocks, List.mem_map, List.mem_range] at hb
  obtain ⟨i, hi, rfl⟩ := hb
  simp only [beq_iff_eq]
  intro hc
  have hlen : (generateMockBlock 1760227200000 (12345 - i)).hash.length = 64 := by
    simp [generateMockBlock, mockHash64, String.length]
  rw [hc] at hlen
  exact absurd hlen (by decide)

/-- C4 amended: purely numeric ids resolve as heights in every backend and
in the RPC backend any other id resolves as a hash, while `MockProvider`
resolves by `parseInt` — any id with a parseable numeric prefix resolves
as a height, and only a `NaN` parse falls through to hash comparison.  In
the mock backend an id matching nothing yields null, and its
block-transactions page is empty with no cursor (for cursor offsets
≥ −20); in the RPC backend a hash the node does not resolve (an unknown or
malformed hash, or the zero hash of an out-of-range height) makes the
uncaught `getBlock` rejection surface to the caller instead of null. -/
theorem id_resolution_amended (c : Chain) (now : Nat) (id : String) :
    (isNumericStr id = true →
      ∃ h : Nat, parseIntJs id = some (h : Int) ∧
        (c.known (c.hashAt h) = true →
          RpcProvider.getBlockByHashOrHeight c now id =
            Except.ok (some (RpcProvider.getBlockByHeight c now h))) ∧
        (c.known (c.hashAt h) = false →
          RpcProvider.getBlockByHashOrHeight c now id = Except.error ())) ∧
    (isNumericStr id = false →
      (c.known id = true →
        RpcProvider.getBlockByHashOrHeight c now id =
          Except.ok (some (RpcProvider.getBlockByHeight c now
            (c.blockOf id).headerNumber))) ∧
      (c.known id = false →
        RpcProvider.getBlockByHashOrHeight c now id = Except.error ()) ∧
      (c.known id = false →
        RpcProvider.getBlockTransactions c id none = none)) ∧
    (∀ h : Int, parseIntJs id = some h →
      MockProvider.getBlockByHashOrHeight now id =
        (MockProvider.mockBlocks now).find? (fun b => b.height == h)) ∧
    (parseIntJs id = none →
      MockProvider.getBlockByHashOrHeight now id =
        (MockProvider.mockBlocks now).find? (fun b => b.hash == id)) ∧
    (MockProvider.getBlockByHashOrHeight now id = none →
      ∀ cursor : Option String, (∀ o : Int, parseCursor cursor = some o → -20 ≤ o) →
        MockProvider.getBlockTransactions now id cursor =
          { items := [], nextCursor := none }) := by
  refine ⟨?_, ?_, ?_, ?_, ?_⟩
  · intro hnum
    obtain ⟨n, hp⟩ := parseIntJs_of_numeric hnum
    refine ⟨n, hp, ?_, ?_⟩ <;> intro hk <;>
      simp [RpcProvider.getBlockByHashOrHeight, hnum, hp, hk]
  · intro hnum
    refine ⟨?_, ?_, ?_⟩ <;> intro hk
    · simp [RpcProvider.getBlockByHashOrHeight, hnum, hk]
    · simp [RpcProvider.getBlockByHashOrHeight, hnum, hk]
    · simp [RpcProvider.getBlockTransactions, hnum, hk]
  · intro h hp
    simp [MockProvider.getBlockByHashOrHeight, hp]
  · intro hp
    simp [MockProvider.getBlockByHashOrHeight, hp]
  · intro hnone cursor hcur
    exact MockProvider.mockBlockTxs_of_lookup_none hnone hcur

/-- C4 amended, witness: the numeric id "3" resolves by height in the RPC
backend, the unknown hash "zzz" surfaces an error there, and the
`NaN`-parsing id "zzz" resolves by hash in the mock. -/
theorem id_resolution_amended_witness :
    RpcProvider.getBlockByHashOrHeight emptyChain 0 "3" =
      Except.ok (some (RpcProvider.getBlockByHeight emptyChain 0 3)) ∧
    RpcProvider.getBlockByHashOrHeight unresolvedChain 0 "zzz" =
      Except.error () ∧
    MockProvider.getBlockByHashOrHeight 1760227200000 "zzz" =
      (MockProvider.mockBlocks 1760227200000).find? (fun b => b.hash == "zzz") := by
  refine ⟨?_, ?_, ?_⟩
  · obtain ⟨h, hp, heq, _⟩ := (id_resolution_amended emptyChain 0 "3").1 (by decide)
    have hp3 : parseIntJs "3" = some 3 := by decide
    rw [hp3] at hp
    have h3 : h = 3 := by exact_mod_cast Option.some_inj.mp hp.symm
    rw [h3] at heq
    exact heq (by decide)
  · exact ((id_resolution_amended unresolvedChain 0 "zzz").2.1 (by decide)).2.1
      (by decide)
  · exact (id_resolution_amended emptyChain 1760227200000 "zzz").2.2.2.1 (by decide)

/-- C2 amended: when every candidate query fails (`tryQueries` yields
`none`), or the mapped result set is empty, each indexer-backed operation
returns exactly the MockProvider result for the same arguments and no
error is surfaced — except `getBlockTransactions` for an id matching
nothing combined with a cursor offset below −20, where the mock fabricates
a negative nextCursor on its empty page while the indexer path returns an
empty page without one; for offsets ≥ −20 (all genuine offsets) the
equality is exact. -/
theorem fallback_equivalence_amended (now : Nat) (limit : Int)
    (cursor : Option String) (id hash addr : String) :
    HttpProvider.getLatestBlocks now none limit =
      MockProvider.getLatestBlocks now limit ∧
    HttpProvider.getLatestTransactions now none limit =
      MockProvider.getLatestTransactions now limit ∧
    HttpProvider.getBlocksPage now none cursor =
      MockProvider.getBlocksPage now cursor ∧
    HttpProvider.getBlockByHashOrHeight now none id =
      MockProvider.getBlockByHashOrHeight now id ∧
    HttpProvider.getTransactionsPage now none cursor =
      MockProvider.getTransactionsPage now cursor ∧
    HttpProvider.getTransactionByHash now none hash =
      MockProvider.getTransactionByHash now hash ∧
    HttpProvider.getAddressSummary none addr =
      MockProvider.getAddressSummary addr ∧
    ((∀ o : Int, parseCursor cursor = some o → -20 ≤ o) →
      HttpProvider.getBlockTransactions now none none id cursor =
        MockProvider.getBlockTransactions now id cursor) ∧
    (∀ r : HttpProvider.BlocksRes, r.extract.filterMap (mapBlock now) = [] →
      HttpProvider.getBlocksPage now (some r) cursor =
        MockProvider.getBlocksPage now cursor) ∧
    (∀ r : HttpProvider.TxListRes, r.extract.filterMap mapTransaction = [] →
      HttpProvider.getTransactionsPage now (some r) cursor =
        MockProvider.getTransactionsPage now cursor) ∧
    (∀ r : HttpProvider.BlocksRes, r.extract.filterMap (mapBlock now) = [] →
      HttpProvider.getLatestBlocks now (some r) limit =
        MockProvider.getLatestBlocks now limit) ∧
    (∀ r : HttpProvider.TxListRes, r.extract.filterMap mapTransaction = [] →
      HttpProvider.getLatestTransactions now (some r) limit =
        MockProvider.getLatestTransactions now limit) ∧
    (∀ r : HttpProvider.BlockRes, r.extract = none →
      HttpProvider.getBlockByHashOrHeight now (some r) id =
        MockProvider.getBlockByHashOrHeight now id) ∧
    (∀ r : HttpProvider.TxRes, r.extract = none →
      HttpProvider.getTransactionByHash now (some r) hash =
        MockProvider.getTransactionByHash now hash) ∧
    (∀ r : HttpProvider.AddrRes, r.extract = none →
      HttpProvider.getAddressSummary (some r) addr =
        MockProvider.getAddressSummary addr) ∧
    (∀ r : HttpProvider.BlockTxsRes, r.extract.filterMap mapTransaction = [] →
      (∀ o : Int, parseCursor cursor = some o → -20 ≤ o) →
      HttpProvider.getBlockTransactions now (some r) none id cursor =
        MockProvider.getBlockTransactions now id cursor) := by
  have hbt : ∀ (hcur : ∀ o : Int, parseCursor cursor = some o → -20 ≤ o),
      (match MockProvider.getBlockByHashOrHeight now id with
        | none => ({ items := [], nextCursor := none } : Page Transaction)
        | some _ => MockProvider.getBlockTransactions now id cursor) =
        MockProvider.getBlockTransactions now id cursor := by
    intro hcur
    cases hl : MockProvider.getBlockByHashOrHeight now id with
    | none => exact (MockProvider.mockBlockTxs_of_lookup_none hl hcur).symm
    | some b => rfl
  refine ⟨rfl, rfl, rfl, rfl, rfl, rfl, rfl, ?_, ?_, ?_, ?_, ?_, ?_, ?_, ?_, ?_⟩
  · intro hcur
    show (match MockProvider.getBlockByHashOrHeight now id with
      | none => ({ items := [], nextCursor := none } : Page Transaction)
      | some _ => MockProvider.getBlockTransactions now id cursor) =
      MockProvider.getBlockTransactions now id cursor
    exact hbt hcur
  · intro r hr
    unfold HttpProvider.getBlocksPage
    simp [hr]
  · intro r hr
    unfold HttpProvider.getTransactionsPage
    simp [hr]
  · intro r hr
    unfold HttpProvider.getLatestBlocks
    simp [hr]
  · intro r hr
    unfold HttpProvider.getLatestTransactions
    simp [hr]
  · intro r hr
    unfold HttpProvider.getBlockByHashOrHeight
    simp [hr]
  · intro r hr
    unfold HttpProvider.getTransactionByHash
    simp [hr]
  · intro r hr
    unfold HttpProvider.getAddressSummary
    simp [hr]
  · intro r hr hcur
    unfold HttpProvider.getBlockTransactions
    simp only [hr, List.isEmpty_nil, if_pos]
    exact hbt hcur

/-- C2 counterexample: all queries failing on id "99" (no such mock
block) with cursor "-30": the indexer layer returns an empty page with no
cursor, the mock returns an empty page with nextCursor "-10". -/
theorem fallback_equivalence_counterexample :
    HttpProvider.getBlockTransactions 1760227200000 none none "99" (some "-30") =
      { items := [], nextCursor := none } ∧
    MockProvider.getBlockTransactions 1760227200000 "99" (some "-30") =
      { items := [], nextCursor := some "-10" } := by
  constructor
  · decide
  · decide

/-- C2 amended, witness: concrete all-fail and mapped-empty instances
agree with the mock. -/
theorem fallback_equivalence_amended_witness :
    HttpProvider.getBlockTransactions 1760227200000 none none "99" none =
      MockProvider.getBlockTransactions 1760227200000 "99" none ∧
    HttpProvider.getBlocksPage 1760227200000
        (some { blocks := none, dataBlocks := none }) none =
      MockProvider.getBlocksPage 1760227200000 none := by
  constructor
  · exact (fallback_equivalence_amended 1760227200000 0 none "99" "h" "a").2.2.2.2.2.2.2.1
      (fun o ho => by simp [parseCursor] at ho; omega)
  · exact (fallback_equivalence_amended 1760227200000 0 none "99" "h" "a").2.2.2.2.2.2.2.2.1
      { blocks := none, dataBlocks := none } rfl

/-- The indexer pagers' nextCursor is present iff a full page of 20 items
was produced, and then encodes `offset + 20`. -/
theorem pageNextCursor_spec (cursor : Option String) (n : Nat) (o : Int)
    (hp : parseCursor cursor = some o) :
    ((HttpProvider.pageNextCursor cursor n).isSome ↔ n = 20) ∧
    (n = 20 → HttpProvider.pageNextCursor cursor n = some (toString (o + 20))) := by
  by_cases h : n = 20 <;> simp [HttpProvider.pageNextCursor, h, hp]

/-- A chain whose tip is height 19: exactly 20 blocks exist. -/
def tip19Chain : Chain :=
  { tip := 19
    hashAt := fun _ => "0xtip19"
    blockOf := fun _ => { extrinsics := [], events := [], headerNumber := 0 }
    known := fun _ => true }

/-- C1 counterexample: on a 20-block chain (tip 19) the RPC
`getBlocksPage` returns a full first page with nextCursor "20" although no
items exist beyond the window — the page at cursor "20" is empty. -/
theorem pagination_counterexample :
    ((RpcProvider.getBlocksPage tip19Chain 0 none).map Page.nextCursor) =
      some (some "20") ∧
    RpcProvider.getBlocksPage tip19Chain 0 (some "20") =
      some { items := [], nextCursor := none } := by
  constructor
  · decide
  · decide

/-- C1 amended: a present nextCursor always encodes `offset + 20` as a
decimal string.  For MockProvider's pagers nextCursor is present iff
strictly more items exist beyond the returned window; for the
indexer-backed pagers and the RPC block pager it is present iff a full
page (20 items) was produced — which can overreport at an exact
end-of-collection boundary; the RPC transaction pagers compare the scanned
collection's length against `offset + 20`. -/
theorem pagination_amended (now : Nat) (c : Chain) (cursor : Option String)
    (id : String) (o : Int) (hp : parseCursor cursor = some o) (_ho : 0 ≤ o) :
    ((MockProvider.getBlocksPage now cursor).nextCursor.isSome ↔
      o + 20 < ((MockProvider.mockBlocks now).length : Int)) ∧
    ((MockProvider.getBlocksPage now cursor).nextCursor.isSome →
      (MockProvider.getBlocksPage now cursor).nextCursor = some (toString (o + 20))) ∧
    ((MockProvider.getTransactionsPage now cursor).nextCursor.isSome ↔
      o + 20 < ((MockProvider.mockTransactions now).length : Int)) ∧
    ((MockProvider.getTransactionsPage now cursor).nextCursor.isSome →
      (MockProvider.getTransactionsPage now cursor).nextCursor =
        some (toString (o + 20))) ∧
    (∀ h : Int, parseIntJs id = some h →
      (((MockProvider.getBlockTransactions now id cursor).nextCursor.isSome ↔
        o + 20 < (((MockProvider.mockTransactions now).filter
          (fun tx => tx.blockHeight == some h)).length : Int)) ∧
      ((MockProvider.getBlockTransactions now id cursor).nextCursor.isSome →
        (MockProvider.getBlockTransactions now id cursor).nextCursor =
          some (toString (o + 20))))) ∧
    (∀ r : HttpProvider.BlocksRes, r.extract.filterMap (mapBlock now) ≠ [] →
      (((HttpProvider.getBlocksPage now (some r) cursor).nextCursor.isSome ↔
        (r.extract.filterMap (mapBlock now)).length = 20) ∧
      ((HttpProvider.getBlocksPage now (some r) cursor).nextCursor.isSome →
        (HttpProvider.getBlocksPage now (some r) cursor).nextCursor =
          some (toString (o + 20))))) ∧
    (∀ r : HttpProvider.TxListRes, r.extract.filterMap mapTransaction ≠ [] →
      (((HttpProvider.getTransactionsPage now (some r) cursor).nextCursor.isSome ↔
        (r.extract.filterMap mapTransaction).length = 20) ∧
      ((HttpProvider.getTransactionsPage now (some r) cursor).nextCursor.isSome →
        (HttpProvider.getTransactionsPage now (some r) cursor).nextCursor =
          some (toString (o + 20))))) ∧
    (∀ r : HttpProvider.BlockTxsRes, ∀ lookupRes,
      r.extract.filterMap mapTransaction ≠ [] →
      (((HttpProvider.getBlockTransactions now (some r) lookupRes id cursor).nextCursor.isSome ↔
        (r.extract.filterMap mapTransaction).length = 20) ∧
      ((HttpProvider.getBlockTransactions now (some r) lookupRes id cursor).nextCursor.isSome →
        (HttpProvider.getBlockTransactions now (some r) lookupRes id cursor).nextCursor =
          some (toString (o + 20))))) ∧
    (∀ p : Page Block, RpcProvider.getBlocksPage c now cursor = some p →
      ((p.nextCursor.isSome ↔ p.items.length = 20) ∧
      (p.nextCursor.isSome → p.nextCursor = some (toString (o + 20))))) ∧
    (∀ p : Page Transaction, RpcProvider.getTransactionsPage c cursor = some p →
      ((p.nextCursor.isSome ↔
        o + 20 < ((RpcProvider.collectBackward c (o + 20).toNat c.tip 200 []).length : Int)) ∧
      (p.nextCursor.isSome → p.nextCursor = some (toString (o + 20))))) ∧
    (isNumericStr id = false →
      ∀ p : Page Transaction, RpcProvider.getBlockTransactions c id cursor = some p →
      ((p.nextCursor.isSome ↔
        o + 20 < ((RpcProvider.mapExtrinsicsForBlock c
          (c.blockOf id).headerNumber id).length : Int)) ∧
      (p.nextCursor.isSome → p.nextCursor = some (toString (o + 20))))) := by
  refine ⟨?_, ?_, ?_, ?_, ?_, ?_, ?_, ?_, ?_, ?_, ?_⟩
  · by_cases hlt : o + 20 < ((MockProvider.mockBlocks now).length : Int) <;>
      simp [MockProvider.getBlocksPage, hp, hlt]
  · by_cases hlt : o + 20 < ((MockProvider.mockBlocks now).length : Int) <;>
      simp [MockProvider.getBlocksPage, hp, hlt]
  · by_cases hlt : o + 20 < ((MockProvider.mockTransactions now).length : Int) <;>
      simp [MockProvider.getTransactionsPage, hp, hlt]
  · by_cases hlt : o + 20 < ((MockProvider.mockTransactions now).length : Int) <;>
      simp [MockProvider.getTransactionsPage, hp, hlt]
  · intro h hph
    by_cases hlt : o + 20 < (((MockProvider.mockTransactions now).filter
        (fun tx => tx.blockHeight == some h)).length : Int) <;>
      simp [MockProvider.getBlockTransactions, hp, hph, hlt]
  · intro r hr
    have hps := pageNextCursor_spec cursor (r.extract.filterMap (mapBlock now)).length o hp
    have hie : (r.extract.filterMap (mapBlock now)).isEmpty = false := by
      simpa [List.isEmpty_iff] using hr
    unfold HttpProvider.getBlocksPage
    simp only [hie, Bool.false_eq_true, if_false]
    exact ⟨hps.1, fun hs => hps.2 (hps.1.mp hs)⟩
  · intro r hr
    have hps := pageNextCursor_spec cursor (r.extract.filterMap mapTransaction).length o hp
    have hie : (r.extract.filterMap mapTransaction).isEmpty = false := by
      simpa [List.isEmpty_iff] using hr
    unfold HttpProvider.getTransactionsPage
    simp only [hie, Bool.false_eq_true, if_false]
    exact ⟨hps.1, fun hs => hps.2 (hps.1.mp hs)⟩
  · intro r lookupRes hr
    have hps := pageNextCursor_spec cursor (r.extract.filterMap mapTransaction).length o hp
    have hie : (r.extract.filterMap mapTransaction).isEmpty = false := by
      simpa [List.isEmpty_iff] using hr
    unfold HttpProvider.getBlockTransactions
    simp only [hie, Bool.false_eq_true, if_false]
    exact ⟨hps.1, fun hs => hps.2 (hps.1.mp hs)⟩
  · intro p hpage
    unfold RpcProvider.getBlocksPage at hpage
    rw [hp] at hpage
    rw [Option.some_inj] at hpage
    subst hpage
    by_cases h20 : ((List.range 20).map (fun i => (c.tip : Int) - o - i)
        |>.takeWhile (fun h => 0 ≤ h)).length = 20 <;>
      simp [List.length_map, h20]
  · intro p hpage
    unfold RpcProvider.getTransactionsPage at hpage
    rw [hp] at hpage
    rw [Option.some_inj] at hpage
    subst hpage
    by_cases hgt : o + 20 <
        ((RpcProvider.collectBackward c (o + 20).toNat c.tip 200 []).length : Int) <;>
      simp [hgt]
  · intro hnum p hpage
    unfold RpcProvider.getBlockTransactions at hpage
    rw [hnum] at hpage
    simp only [Bool.false_eq_true, if_false] at hpage
    by_cases hk : c.known id
    · simp only [hk, if_pos] at hpage
      rw [hp] at hpage
      rw [Option.some_inj] at hpage
      subst hpage
      by_cases hgt : o + 20 < ((RpcProvider.mapExtrinsicsForBlock c
          (c.blockOf id).headerNumber id).length : Int) <;>
        simp [hgt]
    · simp only [Bool.not_eq_true] at hk
      simp only [hk] at hpage
      simp at hpage

/-- C1 amended, witness: the first mock blocks page carries nextCursor
"20". -/
theorem pagination_amended_witness :
    (MockProvider.getBlocksPage 1760227200000 none).nextCursor = some "20" := by
  have h := pagination_amended 1760227200000 emptyChain none "99" 0 rfl (by decide)
  have h2 := h.2.1 (by rw [h.1, MockProvider.mockBlocks_length]; decide)
  rw [h2]
  decide
